import Mathlib

/-!
Shallow embedding of the pySwitchbot protocol layer
(`switchbot/__init__.py`): advertisement decoding, command-key
obfuscation, the send-command transaction with retry, the discovery
aggregator, and the device facade result handling.  Machine bytes are
modelled as `Nat` with explicit masks; fallible indexing is modelled
with `Option`.
-/

namespace Switchbot

/-- Fuelled digit loop for hex rendering: produces the base-16 digits
of `n`, most significant first, no leading zeros (empty for 0).  The
fuel argument only makes the recursion structural; it is immaterial
whenever it is at least `n`. -/
def hexDigitsCore (f : Nat → Char) : Nat → Nat → List Char
  | 0, _ => []
  | fuel + 1, n =>
    if n = 0 then [] else hexDigitsCore f fuel (n / 16) ++ [f (n % 16)]

/-- Hex digit characters of a natural number, most significant first,
with no leading zeros (empty for 0).  `f` renders a single digit.
Mirrors the digit loop behind Python percent-x formatting. -/
def hexDigitsAux (f : Nat → Char) (n : Nat) : List Char :=
  hexDigitsCore f n n

/-- Fuel is immaterial once it covers the value. -/
lemma hexDigitsCore_of_le (f : Nat → Char) :
    ∀ (fuel fuel2 n : Nat), n ≤ fuel → n ≤ fuel2 →
      hexDigitsCore f fuel n = hexDigitsCore f fuel2 n := by
  intro fuel
  induction fuel with
  | zero =>
    intro fuel2 n h1 _
    have hn : n = 0 := Nat.le_zero.mp h1
    subst hn
    cases fuel2 <;> simp [hexDigitsCore]
  | succ fuel ih =>
    intro fuel2 n h1 h2
    by_cases hn : n = 0
    · subst hn
      cases fuel2 <;> simp [hexDigitsCore]
    · cases fuel2 with
      | zero => exact absurd (Nat.le_zero.mp h2) hn
      | succ g =>
        rw [hexDigitsCore, hexDigitsCore, if_neg hn, if_neg hn]
        have hdiv : n / 16 < n := Nat.div_lt_self (Nat.pos_of_ne_zero hn) (by norm_num)
        exact congrArg (fun l => l ++ [f (n % 16)])
          (ih _ _ (by omega) (by omega))

/-- Unfolding equation of the hex digit loop. -/
lemma hexDigitsAux_eq (f : Nat → Char) (n : Nat) :
    hexDigitsAux f n =
      if n = 0 then [] else hexDigitsAux f (n / 16) ++ [f (n % 16)] := by
  cases n with
  | zero => simp [hexDigitsAux, hexDigitsCore]
  | succ m =>
    have h0 : ¬ (m + 1 = 0) := Nat.succ_ne_zero m
    unfold hexDigitsAux
    rw [hexDigitsCore, if_neg h0, if_neg h0]
    have hdiv : (m + 1) / 16 ≤ m := by omega
    rw [hexDigitsCore_of_le f m ((m + 1) / 16) ((m + 1) / 16) hdiv le_rfl]

/-- Python `"%x" % n` for a nonnegative `n`: lower-case hex, no
padding, `"0"` for zero. -/
def hexStr (n : Nat) : String :=
  if n = 0 then "0" else String.mk (hexDigitsAux Nat.digitChar n)

/-- Upper-case hex digit character for a value below 16. -/
def hexDigitCharUpper (n : Nat) : Char :=
  if n < 10 then Char.ofNat (48 + n) else Char.ofNat (55 + n)

/-- Python `"%0.2X" % n` for a nonnegative `n`: upper-case hex,
zero-padded on the left to at least two digits. -/
def hexUpperMin2 (n : Nat) : String :=
  let ds := if n = 0 then ['0'] else hexDigitsAux hexDigitCharUpper n
  String.mk (List.replicate (2 - ds.length) '0' ++ ds)

/-- One bit step of the reflected CRC-32 (polynomial 0xEDB88320), as
computed by `binascii.crc32`. -/
def crc32Step (c : Nat) : Nat :=
  if c &&& 1 = 1 then (c >>> 1) ^^^ 0xEDB88320 else c >>> 1

/-- Fold one input byte into the CRC-32 accumulator (eight bit
steps). -/
def crc32Byte (c b : Nat) : Nat :=
  List.foldl (fun acc _ => crc32Step acc) (c ^^^ (b &&& 255)) (List.range 8)

/-- Python function binascii.crc32 over a byte sequence: initial value 0xFFFFFFFF,
final xor 0xFFFFFFFF. -/
def crc32 (data : List Nat) : Nat :=
  (List.foldl crc32Byte 0xFFFFFFFF data) ^^^ 0xFFFFFFFF

/-- Command key constants from the source module. -/
def DEVICE_GET_BASIC_SETTINGS_KEY : String := "5702"

/-- Set-mode command key constant. -/
def DEVICE_SET_MODE_KEY : String := "5703"

/-- Set-extended command key constant. -/
def DEVICE_SET_EXTENDED_KEY : String := "570f"

/-- Bot press command key. -/
def PRESS_KEY : String := "570100"

/-- Bot on command key. -/
def ON_KEY : String := "570101"

/-- Bot off command key. -/
def OFF_KEY : String := "570102"

/-- Curtain open command key. -/
def OPEN_KEY : String := "570f450105ff00"

/-- Curtain close command key. -/
def CLOSE_KEY : String := "570f450105ff64"

/-- Curtain position command key, to be followed by a two-hex-digit
position value. -/
def POSITION_KEY : String := "570F450105ff"

/-- Curtain stop command key. -/
def STOP_KEY : String := "570F450100ff"

/-- Header interposed in front of obfuscated command keys
(`KEY_PASSWORD_PREFIX` in the source). -/
def KEY_PASSWORD_HEADER : String := "571"

/-- Default retry count. -/
def DEFAULT_RETRY_COUNT : Nat := 3

/-- Decoded state of a Bot (woHand) advertisement. -/
structure BotData where
  switchMode : Bool
  isOn : Bool
  battery : Nat
  deriving Repr, DecidableEq

/-- Translation of `_process_wohand`: decode Bot service data.  `none` models the
IndexError a too-short payload would raise. -/
def _process_wohand (data : List Nat) : Option BotData :=
  match data.get? 1, data.get? 2 with
  | some b1, some b2 =>
    let switchMode : Bool := decide (b1 &&& 128 ≠ 0)
    let isOn : Bool := if switchMode then ! decide (b1 &&& 64 ≠ 0) else false
    some ⟨switchMode, isOn, b2 &&& 127⟩
  | _, _ => none

/-- Decoded state of a Curtain (woCurtain) advertisement. -/
structure CurtainData where
  calibration : Bool
  battery : Nat
  inMotion : Bool
  position : Nat
  lightLevel : Nat
  deviceChain : Nat
  deriving Repr, DecidableEq

/-- Translation of `_process_wocurtain`: decode Curtain service data (the source
defaults `reverse` to true). -/
def _process_wocurtain (data : List Nat) (reverse : Bool) : Option CurtainData :=
  match data.get? 1, data.get? 2, data.get? 3, data.get? 4 with
  | some b1, some b2, some b3, some b4 =>
    let _position := max (min (b3 &&& 127) 100) 0
    some ⟨decide (b1 &&& 64 ≠ 0), b2 &&& 127, decide (b3 &&& 128 ≠ 0),
      if reverse then 100 - _position else _position,
      (b4 >>> 4) &&& 15, b4 &&& 7⟩
  | _, _, _, _ => none

/-- Decoded state of a SensorTH (woSensorTH) advertisement.
Temperatures are modelled as rationals. -/
structure THData where
  tempC : ℚ
  tempF : ℚ
  fahrenheit : Bool
  humidity : Nat
  battery : Nat
  deriving Repr, DecidableEq

/-- Translation of `_process_wosensorth`: decode temperature/humidity sensor service
data. -/
def _process_wosensorth (data : List Nat) : Option THData :=
  match data.get? 2, data.get? 3, data.get? 4, data.get? 5 with
  | some b2, some b3, some b4, some b5 =>
    let _temp_sign : ℚ := if b4 &&& 128 ≠ 0 then 1 else -1
    let _temp_c : ℚ := _temp_sign * (((b4 &&& 127 : Nat) : ℚ) + (b3 : ℚ) / 10)
    let _temp_f : ℚ := (_temp_c * 9 / 5) + 32
    let _temp_f := (_temp_f * 10) / 10
    some ⟨_temp_c, _temp_f, decide (b5 &&& 128 ≠ 0), b5 &&& 127, b2 &&& 127⟩
  | _, _, _, _ => none

/-- Model letter of an advertisement: `chr(service_data[0] & 0x7F)`. -/
def classifyModel (b0 : Nat) : Char := Char.ofNat (b0 &&& 127)

/-- Decoded `data` field stored by the aggregator for one device: the
rssi-only dictionary for unknown models, or the family-specific decode. -/
inductive AdvData
  | rssiOnly (rssi : Int)
  | bot (b : BotData)
  | curtain (c : CurtainData)
  | sensorth (t : THData)
  deriving Repr, DecidableEq

/-- One per-address record stored by `GetSwitchbotDevices`. -/
structure DeviceRecord where
  mac_address : String
  service_data : List Nat
  isEncrypted : Bool
  model : Char
  modelName : Option String
  data : AdvData
  deriving Repr, DecidableEq

/-- State of a `GetSwitchbotDevices` instance: the two dictionaries the
source keeps.  `_all_services_data` is initialised empty in `__init__`
and, in this revision of the source, never written afterwards; the scan
callback writes `_data`. -/
structure AggState where
  _all_services_data : List (String × DeviceRecord)
  _data : List (String × DeviceRecord)
  deriving Repr, DecidableEq

/-- Freshly constructed `GetSwitchbotDevices` state. -/
def initAgg : AggState := ⟨[], []⟩

/-- Python `address.replace(":", "")`. -/
def stripColons (s : String) : String :=
  String.mk (s.data.filter (fun c => c != ':'))

/-- Python dict assignment `d[k] = v` on an insertion-ordered
association list: update in place if present, else append. -/
def dictInsert (k : String) (v : DeviceRecord) :
    List (String × DeviceRecord) → List (String × DeviceRecord)
  | [] => [(k, v)]
  | (k2, v2) :: rest =>
    if k2 = k then (k, v) :: rest else (k2, v2) :: dictInsert k v rest

/-- Translation of `GetSwitchbotDevices.detection_callback`: classify one
advertisement and store the record in `_data`, keyed by the address
with colons stripped.  `none` models the IndexError raised on a
too-short payload. -/
def detection_callback (st : AggState) (address : String) (rssi : Int)
    (service_data : List Nat) : Option AggState :=
  match service_data.get? 0 with
  | none => none
  | some sb0 =>
    let _device := stripColons address
    let _model := classifyModel sb0
    let base : DeviceRecord :=
      ⟨address, service_data, decide (sb0 &&& 128 ≠ 0), _model, none,
        AdvData.rssiOnly rssi⟩
    if _model = 'H' then
      match _process_wohand service_data with
      | none => none
      | some b =>
        some ⟨st._all_services_data,
          dictInsert _device
            { base with modelName := some "WoHand", data := AdvData.bot b }
            st._data⟩
    else if _model = 'c' then
      match _process_wocurtain service_data true with
      | none => none
      | some c =>
        some ⟨st._all_services_data,
          dictInsert _device
            { base with modelName := some "WoCurtain", data := AdvData.curtain c }
            st._data⟩
    else if _model = 'T' then
      match _process_wosensorth service_data with
      | none => none
      | some t =>
        some ⟨st._all_services_data,
          dictInsert _device
            { base with modelName := some "WoSensorTH", data := AdvData.sensorth t }
            st._data⟩
    else
      some ⟨st._all_services_data, dictInsert _device base st._data⟩

/-- Translation of `GetSwitchbotDevices.get_device_data`: linear scan over
`_all_services_data` values, last record whose `mac_address` matches
wins; `none` models the empty dictionary returned when nothing
matches. -/
def get_device_data (st : AggState) (mac : String) : Option DeviceRecord :=
  List.foldl
    (fun acc kv => if kv.2.mac_address = mac then some kv.2 else acc)
    none st._all_services_data

/-- Translation of `GetSwitchbotDevices.get_bots`: entries of `_all_services_data`
whose model letter is `H`. -/
def get_bots (st : AggState) : List (String × DeviceRecord) :=
  st._all_services_data.filter (fun kv => kv.2.model == 'H')

/-- Translation of `GetSwitchbotDevices.get_curtains`: entries whose model letter is
`c`. -/
def get_curtains (st : AggState) : List (String × DeviceRecord) :=
  st._all_services_data.filter (fun kv => kv.2.model == 'c')

/-- Translation of `GetSwitchbotDevices.get_tempsensors`: entries whose model letter
is `T`. -/
def get_tempsensors (st : AggState) : List (String × DeviceRecord) :=
  st._all_services_data.filter (fun kv => kv.2.model == 'T')

/-- Translation of the `SwitchbotDevice.__init__` password handling: `None` or the empty
string leave `_password_encoded` unset; otherwise it is
`"%x" % (binascii.crc32(password.encode("ascii")) & 0xFFFFFFFF)`. -/
def password_encoded (password : Option String) : Option String :=
  match password with
  | none => none
  | some p =>
    if p = "" then none
    else some (hexStr (crc32 (p.data.map Char.toNat) &&& 0xFFFFFFFF))

/-- Translation of `SwitchbotDevice._commandkey`: pass the key through when no
password is configured, else interpose the `571` header and the
checksum token between the action nibble `key[3]` and the suffix
`key[4:]`.  `none` models the IndexError on a key shorter than 4. -/
def _commandkey (pw : Option String) (key : String) : Option String :=
  match pw with
  | none => some key
  | some token =>
    match key.data.get? 3 with
    | none => none
    | some key_action =>
      some (KEY_PASSWORD_HEADER ++ String.mk [key_action] ++ token
        ++ String.mk (key.data.drop 4))

/-- Outcome of the notification read of one transaction attempt. -/
inductive ReadOutcome
  | err
  | msg (m : List Nat)
  deriving Repr, DecidableEq

/-- Behaviour of the BLE collaborator during one
connect–subscribe–write–read attempt: whether each stage raises
`BleakError`, and what the read returns when reached. -/
structure AttemptBehavior where
  connectOk : Bool
  subscribeOk : Bool
  writeOk : Bool
  read : ReadOutcome
  deriving Repr, DecidableEq

/-- Calls issued to the collaborator during one attempt. -/
inductive TCall
  | connect
  | subscribe
  | write
  | read
  | disconnect
  deriving Repr, DecidableEq

/-- Value of `notify_msg` after the try/except block of one
`_sendcommand` attempt: it is initialised to `b"\x00"` (modelled `[0]`)
and only overwritten when connect, subscribe and write succeed and the
read returns; a `BleakError` anywhere in the try block is caught and
leaves the initial value in place.  Caveat: this models the intended
data flow with the source's missing `await` on `_commandkey` repaired.
In the source as written, `command` is an un-awaited coroutine, so any
attempt that reaches `_writekey` raises an uncaught TypeError at
`bytearray.fromhex` and the read/success branch is dead code; the
model is exact only on the paths where connect or subscribe raises
`BleakError`, which are the paths the theorems below exercise. -/
def attemptNotify (b : AttemptBehavior) : List Nat :=
  if b.connectOk then
    if b.subscribeOk then
      if b.writeOk then
        match b.read with
        | ReadOutcome.err => [0]
        | ReadOutcome.msg m => m
      else [0]
    else [0]
  else [0]

/-- Trace of collaborator calls of one attempt: each stage runs until
the first failure, and the `finally` clause appends exactly one
disconnect on every path. -/
def attemptCalls (b : AttemptBehavior) : List TCall :=
  (if b.connectOk then
    if b.subscribeOk then
      if b.writeOk then [TCall.connect, TCall.subscribe, TCall.write, TCall.read]
      else [TCall.connect, TCall.subscribe, TCall.write]
    else [TCall.connect, TCall.subscribe]
  else [TCall.connect]) ++ [TCall.disconnect]

/-- Translation of the `SwitchbotDevice._sendcommand` value behaviour over a sequence of
attempt behaviours (`link i` is attempt `i`): return `notify_msg` when
it is non-empty, otherwise retry while `retry ≥ 1`, decrementing.
Caveat: this idealises the source's two missing `await`s.  As written,
the recursive `return self._sendcommand(key, retry - 1)` returns a
coroutine object rather than bytes, and because the un-awaited
`_commandkey` makes the write raise an uncaught TypeError before any
read, `notify_msg` can never become empty, so the retry and
empty-return branches are unreachable in real executions; only the
first attempt's `[0]`-after-caught-`BleakError` behaviour, which the
theorems below rely on, matches the source exactly. -/
def _sendcommand (link : Nat → AttemptBehavior) (i : Nat) : Nat → List Nat
  | 0 =>
    attemptNotify (link i)
  | retry + 1 =>
    let notify_msg := attemptNotify (link i)
    if notify_msg ≠ [] then notify_msg
    else _sendcommand link (i + 1) retry

/-- Result handling of `Switchbot.turn_on`: boolean from the first
response byte, `none` models the IndexError on an empty result. -/
def turn_on_result (result : List Nat) : Option Bool :=
  match result.get? 0 with
  | none => none
  | some b => if b = 1 then some true else if b = 5 then some true else some false

/-- Result handling of `Switchbot.turn_off`. -/
def turn_off_result (result : List Nat) : Option Bool :=
  match result.get? 0 with
  | none => none
  | some b => if b = 1 then some true else if b = 5 then some true else some false

/-- Result handling of `Switchbot.press`. -/
def press_result (result : List Nat) : Option Bool :=
  match result.get? 0 with
  | none => none
  | some b => if b = 1 then some true else if b = 5 then some true else some false

/-- Result handling of `Switchbot.set_switch_mode`. -/
def set_switch_mode_result (result : List Nat) : Option Bool :=
  match result.get? 0 with
  | none => none
  | some b => if b = 1 then some true else some false

/-- Result handling of `Switchbot.set_long_press`. -/
def set_long_press_result (result : List Nat) : Option Bool :=
  match result.get? 0 with
  | none => none
  | some b => if b = 1 then some true else some false

/-- Result handling of `SwitchbotCurtain.open`. -/
def open_result (result : List Nat) : Option Bool :=
  match result.get? 0 with
  | none => none
  | some b => if b = 1 then some true else some false

/-- Result handling of `SwitchbotCurtain.close`. -/
def close_result (result : List Nat) : Option Bool :=
  match result.get? 0 with
  | none => none
  | some b => if b = 1 then some true else some false

/-- Result handling of `SwitchbotCurtain.stop`. -/
def stop_result (result : List Nat) : Option Bool :=
  match result.get? 0 with
  | none => none
  | some b => if b = 1 then some true else some false

/-- Result handling of `SwitchbotCurtain.set_position`. -/
def set_position_result (result : List Nat) : Option Bool :=
  match result.get? 0 with
  | none => none
  | some b => if b = 1 then some true else some false

/-- Position value encoded by `SwitchbotCurtain.set_position`:
`(100 - position) if reverse else position`, with no clamping. -/
def set_position_value (reverse : Bool) (position : Int) : Int :=
  if reverse then 100 - position else position

/-- Command string built by `SwitchbotCurtain.set_position`:
`POSITION_KEY + "%0.2X" % value`.  A negative value makes Python
render a minus sign, which is not a hex byte; that case is modelled as
`none`. -/
def set_position_command (reverse : Bool) (position : Int) : Option String :=
  let v := set_position_value reverse position
  if v < 0 then none else some (POSITION_KEY ++ hexUpperMin2 v.toNat)

/-- Translation of `Switchbot.is_on`: cached-state accessor, `none` when no cached
state exists, negated by `_inverse` otherwise. -/
def is_on (inverse : Bool) (cached : Option BotData) : Option Bool :=
  match cached with
  | none => none
  | some d => if inverse then some (! d.isOn) else some d.isOn

/-- Translation of `Switchbot.switch_mode`: cached-state accessor. -/
def switch_mode (cached : Option BotData) : Option Bool :=
  match cached with
  | none => none
  | some d => some d.switchMode

/-- Length of a string built from an explicit character list. -/
lemma length_mk (l : List Char) : (String.mk l).length = l.length := rfl

/-- Hex digit lists of values below `16 ^ k` have at most `k` digits. -/
lemma hexDigitsAux_length_le (f : Nat → Char) :
    ∀ (k n : Nat), n < 16 ^ k → (hexDigitsAux f n).length ≤ k := by
  intro k
  induction k with
  | zero =>
    intro n h
    have hn : n = 0 := Nat.lt_one_iff.mp (by simpa using h)
    subst hn
    simp [hexDigitsAux, hexDigitsCore]
  | succ k ih =>
    intro n h
    by_cases hn : n = 0
    · subst hn
      simp [hexDigitsAux, hexDigitsCore]
    · rw [hexDigitsAux_eq, if_neg hn]
      have hdiv : n / 16 < 16 ^ k := by
        refine (Nat.div_lt_iff_lt_mul (by norm_num)).mpr ?_
        calc n < 16 ^ (k + 1) := h
          _ = 16 ^ k * 16 := pow_succ 16 k
      have := ih _ hdiv
      simp only [List.length_append, List.length_cons, List.length_nil]
      omega

/-- Hex digit lists of nonzero values are nonempty. -/
lemma hexDigitsAux_length_pos (f : Nat → Char) (n : Nat) (h : n ≠ 0) :
    1 ≤ (hexDigitsAux f n).length := by
  rw [hexDigitsAux_eq, if_neg h]
  simp

/-- Python percent-x output is never empty. -/
lemma hexStr_length_pos (n : Nat) : 1 ≤ (hexStr n).length := by
  unfold hexStr
  split
  · decide
  · rw [length_mk]
    exact hexDigitsAux_length_pos _ _ (by assumption)

/-- Python percent-x output of a value below `16 ^ 8` has at most 8
digits. -/
lemma hexStr_length_le8 (n : Nat) (h : n < 16 ^ 8) : (hexStr n).length ≤ 8 := by
  unfold hexStr
  split
  · decide
  · rw [length_mk]
    exact hexDigitsAux_length_le _ 8 n h

/-- Truth of a single-bit mask test, as a decided Bool, equals the bit
test. -/
lemma and_two_pow_decide (n i : Nat) :
    decide (n &&& 2 ^ i ≠ 0) = n.testBit i := by
  have h := Nat.and_two_pow n i
  cases hb : n.testBit i <;> simp [h, hb, pow_ne_zero]

/-- Mask 0x80 tests bit 7. -/
lemma and128_decide (n : Nat) : decide (n &&& 128 ≠ 0) = n.testBit 7 := by
  have h : (128 : Nat) = 2 ^ 7 := by norm_num
  rw [h]
  exact and_two_pow_decide n 7

/-- Mask 0x40 tests bit 6. -/
lemma and64_decide (n : Nat) : decide (n &&& 64 ≠ 0) = n.testBit 6 := by
  have h : (64 : Nat) = 2 ^ 6 := by norm_num
  rw [h]
  exact and_two_pow_decide n 6

/-- Propositional form of the bit-7 mask test. -/
lemma and128_iff (n : Nat) : n &&& 128 ≠ 0 ↔ n.testBit 7 = true := by
  rw [← and128_decide n]
  exact decide_eq_true_iff.symm

/-- Mask 0x7F is reduction modulo 128. -/
lemma and127_mod (n : Nat) : n &&& 127 = n % 128 := by
  have h : (127 : Nat) = 2 ^ 7 - 1 := by norm_num
  have h2 : (128 : Nat) = 2 ^ 7 := by norm_num
  rw [h, h2]
  exact Nat.and_pow_two_sub_one_eq_mod n 7

/-- Evaluation of `_commandkey` when a password token is configured and
the key has a fourth character. -/
lemma _commandkey_some (token key : String) (c : Char)
    (hc : key.data.get? 3 = some c) :
    _commandkey (some token) key =
      some (KEY_PASSWORD_HEADER ++ String.mk [c] ++ token
        ++ String.mk (key.data.drop 4)) := by
  have he : _commandkey (some token) key =
      (match key.data.get? 3 with
        | none => none
        | some key_action =>
          some (KEY_PASSWORD_HEADER ++ String.mk [key_action] ++ token
            ++ String.mk (key.data.drop 4))) := rfl
  rw [he, hc]

/-- C1: the claim as stated is false: the checksum token is rendered by
Python percent-x with no zero padding, so a password whose CRC32 is
below 0x10000000 yields fewer than 8 hex digits.  Password `"aa"` has
CRC32 0x078A19D7 and a 7-digit token, and the obfuscated key for
`ON_KEY` is 13 characters after the header instead of the claimed
3 + 1 + 8 + suffix shape. -/
theorem C1_counterexample :
    password_encoded (some "aa") = some "78a19d7" ∧
    ("78a19d7" : String).length = 7 ∧
    _commandkey (password_encoded (some "aa")) "570101" =
      some "571178a19d701" := by
  refine ⟨by decide, by decide, by decide⟩

/-- C1 (amended): with no password the key passes through unchanged;
with a nonempty password the output is exactly the `571` header, the
action nibble `key[3]`, the checksum token (lower-case hex of the CRC32
of the password, between 1 and 8 digits, unpadded), then the suffix
`key[4:]`. -/
theorem C1_commandkey (p key : String) (hp : p ≠ "") (hk : 4 ≤ key.length) :
    _commandkey (password_encoded none) key = some key ∧
    ∃ c token, key.data.get? 3 = some c ∧
      password_encoded (some p) = some token ∧
      1 ≤ token.length ∧ token.length ≤ 8 ∧
      _commandkey (password_encoded (some p)) key =
        some (KEY_PASSWORD_HEADER ++ String.mk [c] ++ token
          ++ String.mk (key.data.drop 4)) := by
  have hlen : 3 < key.data.length := by
    have he : key.length = key.data.length := rfl
    omega
  obtain ⟨c, hc⟩ : ∃ c, key.data.get? 3 = some c := by
    cases hg : key.data.get? 3 with
    | none =>
      rw [List.get?_eq_none] at hg
      omega
    | some c => exact ⟨c, rfl⟩
  have hpe : password_encoded (some p)
      = some (hexStr (crc32 (p.data.map Char.toNat) &&& 0xFFFFFFFF)) := by
    simp [password_encoded, hp]
  have hbound : crc32 (p.data.map Char.toNat) &&& 0xFFFFFFFF < 16 ^ 8 := by
    have hle : crc32 (p.data.map Char.toNat) &&& 0xFFFFFFFF ≤ 0xFFFFFFFF :=
      Nat.and_le_right
    have : (16 : Nat) ^ 8 = 4294967296 := by norm_num
    omega
  refine ⟨rfl, c, hexStr (crc32 (p.data.map Char.toNat) &&& 0xFFFFFFFF),
    hc, hpe, hexStr_length_pos _, hexStr_length_le8 _ hbound, ?_⟩
  rw [hpe]
  exact _commandkey_some _ key c hc

/-- C1 witness: the amended theorem applied at password `"a"` and key
`ON_KEY`. -/
theorem C1_commandkey_witness :
    (("a" : String) ≠ "" ∧ 4 ≤ ("570101" : String).length) ∧
    (_commandkey (password_encoded none) "570101" = some "570101" ∧
      ∃ c token, ("570101" : String).data.get? 3 = some c ∧
        password_encoded (some "a") = some token ∧
        1 ≤ token.length ∧ token.length ≤ 8 ∧
        _commandkey (password_encoded (some "a")) "570101" =
          some (KEY_PASSWORD_HEADER ++ String.mk [c] ++ token
            ++ String.mk (("570101" : String).data.drop 4))) :=
  ⟨⟨by decide, by decide⟩, C1_commandkey "a" "570101" (by decide) (by decide)⟩

/-- Collaborator that raises a link error on the connect of the first
attempt and would answer `[1]` from the second attempt on. -/
def flakyConnectLink : Nat → AttemptBehavior := fun i =>
  if i = 0 then ⟨false, true, true, ReadOutcome.msg [1]⟩
  else ⟨true, true, true, ReadOutcome.msg [1]⟩

/-- C2: the code contradicts the retry claim.  `notify_msg` is
initialised to `b"\x00"`, which is truthy, so after a caught
`BleakError` the transaction returns `[0]` immediately: a connect
failure on the first attempt is never retried even though the second
attempt would have returned the success response `[1]`, and the source
logs a retry message that this path can never reach. -/
theorem C2_link_error_not_retried :
    _sendcommand flakyConnectLink 0 DEFAULT_RETRY_COUNT = [0] ∧
    attemptNotify (flakyConnectLink 1) = [1] ∧
    ([0] : List Nat) ≠ [1] := by
  refine ⟨by decide, by decide, by decide⟩

/-- First-byte mapping of the Bot on/off/press handlers. -/
lemma handle15_eq (b : Nat) :
    (if b = 1 then some true else if b = 5 then some true else some false)
      = some (decide (b = 1) || decide (b = 5)) := by
  by_cases h1 : b = 1 <;> by_cases h5 : b = 5 <;> simp [h1, h5]

/-- First-byte mapping of the remaining mutating handlers. -/
lemma handle1_eq (b : Nat) :
    (if b = 1 then some true else some false) = some (decide (b = 1)) := by
  by_cases h1 : b = 1 <;> simp [h1]

/-- C3: the claim as stated is false on the empty transaction result:
the claim quantifies over every possible result byte string including
the empty one, but every mutating facade operation indexes
`result[0]`, which on an empty result raises IndexError (modelled
`none`) instead of returning `false`. -/
theorem C3_counterexample :
    turn_on_result [] = none ∧ turn_off_result [] = none ∧
    press_result [] = none ∧ set_switch_mode_result [] = none ∧
    set_long_press_result [] = none ∧ open_result [] = none ∧
    close_result [] = none ∧ stop_result [] = none ∧
    set_position_result [] = none := by
  refine ⟨rfl, rfl, rfl, rfl, rfl, rfl, rfl, rfl, rfl⟩

/-- C3 (amended): for every non-empty transaction result the mutating
facade operations return a boolean derived purely from the first
response byte — true exactly when it is 1, and additionally when it is
5 for the Bot turn on/off/press operations; an empty result raises
instead of returning a boolean. -/
theorem C3_result_mapping (result : List Nat) (b : Nat)
    (h : result.get? 0 = some b) :
    turn_on_result result = some (decide (b = 1) || decide (b = 5)) ∧
    turn_off_result result = some (decide (b = 1) || decide (b = 5)) ∧
    press_result result = some (decide (b = 1) || decide (b = 5)) ∧
    set_switch_mode_result result = some (decide (b = 1)) ∧
    set_long_press_result result = some (decide (b = 1)) ∧
    open_result result = some (decide (b = 1)) ∧
    close_result result = some (decide (b = 1)) ∧
    stop_result result = some (decide (b = 1)) ∧
    set_position_result result = some (decide (b = 1)) := by
  unfold turn_on_result turn_off_result press_result set_switch_mode_result
    set_long_press_result open_result close_result stop_result
    set_position_result
  rw [h]
  exact ⟨handle15_eq b, handle15_eq b, handle15_eq b, handle1_eq b,
    handle1_eq b, handle1_eq b, handle1_eq b, handle1_eq b, handle1_eq b⟩

/-- C3 witness: the amended mapping applied to the result `[5]`. -/
theorem C3_result_mapping_witness :
    ([5] : List Nat).get? 0 = some 5 ∧
    (turn_on_result [5] = some (decide (5 = 1) || decide (5 = 5)) ∧
      turn_off_result [5] = some (decide (5 = 1) || decide (5 = 5)) ∧
      press_result [5] = some (decide (5 = 1) || decide (5 = 5)) ∧
      set_switch_mode_result [5] = some (decide (5 = 1)) ∧
      set_long_press_result [5] = some (decide (5 = 1)) ∧
      open_result [5] = some (decide (5 = 1)) ∧
      close_result [5] = some (decide (5 = 1)) ∧
      stop_result [5] = some (decide (5 = 1)) ∧
      set_position_result [5] = some (decide (5 = 1))) :=
  ⟨rfl, C3_result_mapping [5] 5 rfl⟩

/-- C4: the claim as stated is false: `set_position` performs no
clamping.  With reverse mode off, position 150 is encoded as the byte
0x96 = 150, outside [0x00, 0x64]; with reverse mode on, position 150
yields the negative value -50, which Python renders with a minus sign
(not a hex byte at all, modelled `none`). -/
theorem C4_counterexample :
    set_position_value false 150 = 150 ∧
    ¬ set_position_value false 150 ≤ 100 ∧
    set_position_command false 150 = some (POSITION_KEY ++ "96") ∧
    set_position_value true 150 = -50 ∧
    set_position_command true 150 = none := by
  refine ⟨by decide, by decide, by decide, by decide, by decide⟩

/-- Python percent-0.2X output of a byte value has exactly two
digits. -/
lemma hexUpperMin2_length (n : Nat) (h : n < 256) :
    (hexUpperMin2 n).length = 2 := by
  by_cases hn : n = 0
  · subst hn
    decide
  · have hp : 1 ≤ (hexDigitsAux hexDigitCharUpper n).length :=
      hexDigitsAux_length_pos _ _ hn
    have hle : (hexDigitsAux hexDigitCharUpper n).length ≤ 2 := by
      refine hexDigitsAux_length_le _ 2 n ?_
      rw [show (16 : Nat) ^ 2 = 256 from by norm_num]
      exact h
    simp only [hexUpperMin2, if_neg hn, length_mk, List.length_append,
      List.length_replicate]
    omega

/-- C4 (amended): `set_position` applies only the reverse-mode
transformation, with no clamping; for inputs already in [0, 100] the
transformed value stays in [0, 100] and the encoded command is the
position key followed by exactly two hex digits. -/
theorem C4_set_position_in_range (reverse : Bool) (p : Int)
    (h0 : 0 ≤ p) (h1 : p ≤ 100) :
    0 ≤ set_position_value reverse p ∧ set_position_value reverse p ≤ 100 ∧
    set_position_command reverse p =
      some (POSITION_KEY ++ hexUpperMin2 (set_position_value reverse p).toNat) ∧
    (hexUpperMin2 (set_position_value reverse p).toNat).length = 2 := by
  have hv0 : 0 ≤ set_position_value reverse p := by
    cases reverse <;> simp [set_position_value] <;> omega
  have hv1 : set_position_value reverse p ≤ 100 := by
    cases reverse <;> simp [set_position_value] <;> omega
  refine ⟨hv0, hv1, ?_, hexUpperMin2_length _ (by omega)⟩
  simp only [set_position_command]
  rw [if_neg (by omega : ¬ set_position_value reverse p < 0)]

/-- C4 witness: the amended theorem applied at reverse mode and
position 30. -/
theorem C4_set_position_in_range_witness :
    ((0 : Int) ≤ 30 ∧ (30 : Int) ≤ 100) ∧
    (0 ≤ set_position_value true 30 ∧ set_position_value true 30 ≤ 100 ∧
      set_position_command true 30 =
        some (POSITION_KEY ++ hexUpperMin2 (set_position_value true 30).toNat) ∧
      (hexUpperMin2 (set_position_value true 30).toNat).length = 2) :=
  ⟨⟨by decide, by decide⟩, C4_set_position_in_range true 30 (by decide) (by decide)⟩

/-- C5: the code contradicts the claim.  The scan callback stores the
classified record in `_data`, but `get_device_data`, `get_bots`,
`get_curtains` and `get_tempsensors` all iterate `_all_services_data`,
which is initialised empty and never written; so after observing and
classifying a Bot advertisement, lookup by its address returns the
empty result and the by-family enumerations are empty. -/
theorem C5_lookup_reads_wrong_store :
    ∃ st,
      detection_callback initAgg "E7:00:00:00:00:01" (-60) [72, 192, 50]
        = some st ∧
      st._data = [("E70000000001",
        ⟨"E7:00:00:00:00:01", [72, 192, 50], false, 'H', some "WoHand",
          AdvData.bot ⟨true, false, 50⟩⟩)] ∧
      get_device_data st "E7:00:00:00:00:01" = none ∧
      get_bots st = [] ∧ get_curtains st = [] ∧ get_tempsensors st = [] := by
  refine ⟨⟨[], [("E70000000001",
    ⟨"E7:00:00:00:00:01", [72, 192, 50], false, 'H', some "WoHand",
      AdvData.bot ⟨true, false, 50⟩⟩)]⟩, ?_, ?_, rfl, rfl, rfl, rfl⟩
  · decide
  · decide

/-- C6: Curtain position decoding clamps the masked byte to [0, 100],
raw values of 100 or more decode to the boundary 100 (0 after
reversal), and reversal is exactly complementation to 100. -/
theorem C6_curtain_position (b0 b1 b2 b3 b4 : Nat) :
    ∃ cf ct,
      _process_wocurtain [b0, b1, b2, b3, b4] false = some cf ∧
      _process_wocurtain [b0, b1, b2, b3, b4] true = some ct ∧
      cf.position ≤ 100 ∧
      ct.position = 100 - cf.position ∧
      (100 ≤ b3 &&& 127 → cf.position = 100 ∧ ct.position = 0) := by
  refine ⟨⟨decide (b1 &&& 64 ≠ 0), b2 &&& 127, decide (b3 &&& 128 ≠ 0),
      max (min (b3 &&& 127) 100) 0, (b4 >>> 4) &&& 15, b4 &&& 7⟩,
    ⟨decide (b1 &&& 64 ≠ 0), b2 &&& 127, decide (b3 &&& 128 ≠ 0),
      100 - max (min (b3 &&& 127) 100) 0, (b4 >>> 4) &&& 15, b4 &&& 7⟩,
    rfl, rfl, ?_, rfl, ?_⟩
  · show max (min (b3 &&& 127) 100) 0 ≤ 100
    generalize b3 &&& 127 = r
    omega
  · show 100 ≤ b3 &&& 127 →
      max (min (b3 &&& 127) 100) 0 = 100 ∧
      100 - max (min (b3 &&& 127) 100) 0 = 0
    generalize b3 &&& 127 = r
    intro h
    constructor <;> omega

/-- C6 witness: raw byte 120 (bits 0-6 give 120 > 100) decodes to the
boundary 100, and to 0 in reverse mode. -/
theorem C6_curtain_position_witness :
    (100 ≤ 120 &&& 127) ∧
    ∃ cf ct,
      _process_wocurtain [0, 0, 0, 120, 0] false = some cf ∧
      _process_wocurtain [0, 0, 0, 120, 0] true = some ct ∧
      cf.position = 100 ∧ ct.position = 0 := by
  obtain ⟨cf, ct, h1, h2, _, _, himp⟩ := C6_curtain_position 0 0 0 120 0
  obtain ⟨hcf, hct⟩ := himp (by decide)
  exact ⟨by decide, cf, ct, h1, h2, hcf, hct⟩

/-- Evaluation of the Bot decoder once both bytes are available. -/
lemma _process_wohand_eval (data : List Nat) (b1 b2 : Nat)
    (h1 : data.get? 1 = some b1) (h2 : data.get? 2 = some b2) :
    _process_wohand data = some ⟨decide (b1 &&& 128 ≠ 0),
      if decide (b1 &&& 128 ≠ 0) then ! decide (b1 &&& 64 ≠ 0) else false,
      b2 &&& 127⟩ := by
  unfold _process_wohand
  rw [h1, h2]

/-- C7: for every Bot payload with bytes 1 and 2 present, the decoded
switch mode is bit 7 of byte 1, the on-state is the negation of bit 6
gated by bit 7 (so switch mode false forces on-state false), and the
battery is byte 2 modulo 128. -/
theorem C7_wohand (data : List Nat) (b1 b2 : Nat)
    (h1 : data.get? 1 = some b1) (h2 : data.get? 2 = some b2) :
    ∃ d, _process_wohand data = some d ∧
      d.switchMode = b1.testBit 7 ∧
      d.isOn = (b1.testBit 7 && ! b1.testBit 6) ∧
      (d.switchMode = false → d.isOn = false) ∧
      d.battery = b2 % 128 := by
  refine ⟨_, _process_wohand_eval data b1 b2 h1 h2, ?_, ?_, ?_, ?_⟩
  · exact and128_decide b1
  · show (if decide (b1 &&& 128 ≠ 0) then ! decide (b1 &&& 64 ≠ 0) else false)
      = (b1.testBit 7 && ! b1.testBit 6)
    rw [and128_decide, and64_decide]
    cases hb : b1.testBit 7 <;> simp
  · intro h
    show (if decide (b1 &&& 128 ≠ 0) then ! decide (b1 &&& 64 ≠ 0) else false)
      = false
    have h0 : decide (b1 &&& 128 ≠ 0) = false := h
    rw [h0]
    simp
  · exact and127_mod b2

/-- C7 witness: payload `[0x48, 0xC0, 0x32]` classifies as the Bot
letter H and decodes to switch mode on, off state, battery 50. -/
theorem C7_wohand_witness :
    (([72, 192, 50] : List Nat).get? 1 = some 192 ∧
      ([72, 192, 50] : List Nat).get? 2 = some 50) ∧
    classifyModel 72 = 'H' ∧
    ∃ d, _process_wohand [72, 192, 50] = some d ∧
      d.switchMode = true ∧ d.isOn = false ∧ d.battery = 50 := by
  obtain ⟨d, hd, hs, hi, _, hb⟩ := C7_wohand [72, 192, 50] 192 50 rfl rfl
  refine ⟨⟨rfl, rfl⟩, by decide, d, hd, ?_, ?_, ?_⟩
  · rw [hs]
    decide
  · rw [hi]
    decide
  · rw [hb]

/-- Evaluation of the SensorTH decoder once all four bytes are
available. -/
lemma _process_wosensorth_eval (data : List Nat) (b2 b3 b4 b5 : Nat)
    (h2 : data.get? 2 = some b2) (h3 : data.get? 3 = some b3)
    (h4 : data.get? 4 = some b4) (h5 : data.get? 5 = some b5) :
    _process_wosensorth data = some
      ⟨(if b4 &&& 128 ≠ 0 then (1 : ℚ) else -1)
          * (((b4 &&& 127 : Nat) : ℚ) + (b3 : ℚ) / 10),
        ((if b4 &&& 128 ≠ 0 then (1 : ℚ) else -1)
          * (((b4 &&& 127 : Nat) : ℚ) + (b3 : ℚ) / 10) * 9 / 5 + 32) * 10 / 10,
        decide (b5 &&& 128 ≠ 0), b5 &&& 127, b2 &&& 127⟩ := by
  unfold _process_wosensorth
  rw [h2, h3, h4, h5]

/-- C8: for every SensorTH payload with bytes 2-5 present, the decoded
Celsius temperature is the magnitude `(byte4 and 0x7F) + byte3 / 10`
signed by bit 7 of byte 4: bit 7 set gives a nonnegative temperature,
bit 7 clear a nonpositive one. -/
theorem C8_wosensorth (data : List Nat) (b2 b3 b4 b5 : Nat)
    (h2 : data.get? 2 = some b2) (h3 : data.get? 3 = some b3)
    (h4 : data.get? 4 = some b4) (h5 : data.get? 5 = some b5) :
    ∃ d, _process_wosensorth data = some d ∧
      d.tempC = (if b4.testBit 7 then (1 : ℚ) else -1)
        * (((b4 % 128 : Nat) : ℚ) + (b3 : ℚ) / 10) ∧
      (b4.testBit 7 = true → 0 ≤ d.tempC) ∧
      (b4.testBit 7 = false → d.tempC ≤ 0) := by
  refine ⟨_, _process_wosensorth_eval data b2 b3 b4 b5 h2 h3 h4 h5, ?_, ?_, ?_⟩
  · show (if b4 &&& 128 ≠ 0 then (1 : ℚ) else -1)
        * (((b4 &&& 127 : Nat) : ℚ) + (b3 : ℚ) / 10) = _
    simp only [and128_iff, and127_mod]
  · intro hb
    show 0 ≤ (if b4 &&& 128 ≠ 0 then (1 : ℚ) else -1)
        * (((b4 &&& 127 : Nat) : ℚ) + (b3 : ℚ) / 10)
    rw [if_pos ((and128_iff b4).mpr hb), one_mul]
    positivity
  · intro hb
    show (if b4 &&& 128 ≠ 0 then (1 : ℚ) else -1)
        * (((b4 &&& 127 : Nat) : ℚ) + (b3 : ℚ) / 10) ≤ 0
    have hcond : ¬ b4 &&& 128 ≠ 0 := by
      intro hcon
      rw [(and128_iff b4).mp hcon] at hb
      exact Bool.noConfusion hb
    rw [if_neg hcond, neg_one_mul]
    have hmag : (0 : ℚ) ≤ ((b4 &&& 127 : Nat) : ℚ) + (b3 : ℚ) / 10 := by
      positivity
    linarith

/-- C8 witness: payload with byte 3 = 5 and byte 4 = 0xC8 (bit 7 set,
low bits 72) decodes to +72.5 degrees Celsius. -/
theorem C8_wosensorth_witness :
    (([0, 0, 50, 5, 200, 70] : List Nat).get? 3 = some 5 ∧
      ([0, 0, 50, 5, 200, 70] : List Nat).get? 4 = some 200) ∧
    ∃ d, _process_wosensorth [0, 0, 50, 5, 200, 70] = some d ∧
      d.tempC = (72 : ℚ) + (5 : ℚ) / 10 ∧ 0 ≤ d.tempC := by
  obtain ⟨d, hd, ht, hpos, _⟩ :=
    C8_wosensorth [0, 0, 50, 5, 200, 70] 50 5 200 70 rfl rfl rfl rfl
  have hb : (200 : Nat).testBit 7 = true := by decide
  refine ⟨⟨rfl, rfl⟩, d, hd, ?_, hpos hb⟩
  rw [ht, if_pos hb, one_mul]
  norm_num

/-- C9: every exit path of one transaction attempt — success, or a
link failure at connect, subscribe, write, or during the notification
read/timeout — issues exactly one disconnect, and it is the last
collaborator call before the attempt returns (the `finally` clause). -/
theorem C9_disconnect_once (b : AttemptBehavior) :
    (attemptCalls b).count TCall.disconnect = 1 ∧
    (attemptCalls b).getLast? = some TCall.disconnect := by
  obtain ⟨c, s, w, r⟩ := b
  cases c <;> cases s <;> cases w <;> exact ⟨rfl, rfl⟩

/-- C10: the Bot cached-state accessor returns `none` when no state is
cached, the stored on-state when `inverse_mode` is off, and its
negation when `inverse_mode` is on. -/
theorem C10_is_on (inverse : Bool) (d : BotData) :
    is_on inverse none = none ∧
    is_on true (some d) = some (! d.isOn) ∧
    is_on false (some d) = some d.isOn :=
  ⟨rfl, rfl, rfl⟩

end Switchbot
